import Mathlib

/-
Verification of the futures trading bot core (futures_trading_bot.py):
bar buffer maintenance, moving-average indicator computation, signal
extraction, and the position-reconciliation step of execute_trade.

Prices are modelled as exact rationals; the pandas DataFrame held in
self.data is modelled row-wise, with NaN cells of the indicator columns
represented by none and the presence of the computed columns tracked by
a boolean flag. Fallible operations (the int conversion in latest_signal)
return Option.
-/

namespace FuturesBot

/-- Configuration record mirroring BotConfig (lines 72-101 of the source);
only the strategy, risk and session fields enter the verified core. The
source keeps start and end times as optional strings of the form HH:MM;
they are modelled as optional minutes-since-midnight values, which is what
the source compares after parsing with strptime. -/
structure BotConfig where
  short_window : Nat := 5
  long_window : Nat := 20
  order_size : Int := 1
  max_position : Int := 1
  start_time : Option Nat := none
  end_time : Option Nat := none
deriving DecidableEq, Repr

/-- The source defaults: short_window 5, long_window 20, order_size 1,
max_position 1, no session bounds. -/
def defaultConfig : BotConfig := {}

/-- One row of the pandas DataFrame self.data. A row always carries its
timestamp (the date index) and close price; the indicator cells sma_short,
sma_long and signal are none where the frame holds NaN or the column is
absent. The unused open, high, low and volume columns are carried by the
source but never read by the verified core, so they are omitted. -/
structure Row where
  ts : Int
  close : ℚ
  smaShort : Option ℚ := none
  smaLong : Option ℚ := none
  signal : Option Int := none
deriving DecidableEq, Repr

/-- The DataFrame self.data: its rows in order, plus whether the indicator
columns (in particular signal) are present, mirroring the test
for signal membership in self.data.columns at line 175. -/
structure DataFrame where
  rows : List Row
  hasIndicatorCols : Bool := false
deriving DecidableEq, Repr

/-- A newly received bar (only the fields the core reads). -/
structure Bar where
  ts : Int
  close : ℚ
deriving DecidableEq, Repr

/-- The row created for a fresh bar by util.df at line 181: indicator
cells are absent (NaN after concat with a frame that has those columns). -/
def barRow (b : Bar) : Row :=
  { ts := b.ts, close := b.close }

/-- Value of the rolling mean of width w at position i, as produced by
rolling(window=w).mean() at line 164-165: NaN (none) until the window is
full, then the mean of the w closes ending at position i. -/
def smaAt (w : Nat) (closes : List ℚ) (i : Nat) : Option ℚ :=
  if i + 1 < w then none
  else some (((closes.drop (i + 1 - w)).take w).sum / (w : ℚ))

/-- Pandas comparison of two possibly-NaN cells: any comparison against
NaN is False, matching the greater-than at line 169. -/
def optGt : Option ℚ → Option ℚ → Bool
  | some a, some b => decide (b < a)
  | _, _ => false

/-- The signal column cell at position i, per lines 166-170: the column is
initialised to 0 everywhere and the slice from position long_window onward
is overwritten with plus one where sma_short is greater than sma_long and
minus one otherwise. -/
def signalAt (sw lw : Nat) (closes : List ℚ) (i : Nat) : Int :=
  if i < lw then 0
  else if optGt (smaAt sw closes i) (smaAt lw closes i) then 1 else -1

/-- Rewrites every row of the frame with the freshly computed indicator
cells, the first row of rs being at absolute position i. -/
def applyIndicators (sw lw : Nat) (closes : List ℚ) : Nat → List Row → List Row
  | _, [] => []
  | i, r :: rs =>
    { r with
      smaShort := smaAt sw closes i,
      smaLong := smaAt lw closes i,
      signal := some (signalAt sw lw closes i) } :: applyIndicators sw lw closes (i + 1) rs

/-- compute_indicators (lines 159-171): returns immediately on an empty
frame, otherwise recomputes the sma_short, sma_long and signal columns of
every row from the close column. -/
def compute_indicators (cfg : BotConfig) (df : DataFrame) : DataFrame :=
  if df.rows.isEmpty then df
  else
    { rows := applyIndicators cfg.short_window cfg.long_window (df.rows.map Row.close) 0 df.rows,
      hasIndicatorCols := true }

/-- latest_signal (lines 173-177): 0 when the signal column is absent or
the frame is empty, otherwise the int conversion of the last signal cell;
converting a NaN cell raises, modelled by none. -/
def latest_signal (df : DataFrame) : Option Int :=
  if df.hasIndicatorCols = false || df.rows.isEmpty then some 0
  else
    match df.rows.getLast? with
    | some r => r.signal
    | none => some 0

/-- The buffer maintenance step of on_bar_update (lines 181-186): the new
bar row is concatenated unconditionally, then the frame is cut down to its
most recent 3 times max(short_window, long_window) rows when longer. -/
def appendAndTrim (cfg : BotConfig) (df : DataFrame) (b : Bar) : DataFrame :=
  let rows1 := df.rows ++ [barRow b]
  let cap := 3 * max cfg.short_window cfg.long_window
  { rows := if cap < rows1.length then rows1.drop (rows1.length - cap) else rows1,
    hasIndicatorCols := df.hasIndicatorCols }

/-- Order side of the market order built at lines 205-207. -/
inductive OrderAction
  | buy
  | sell
deriving DecidableEq, Repr

/-- Terminal status eventually reported for a submitted order; the loop at
lines 212-213 waits for isDone, which becomes true on fill, cancellation
or rejection alike. -/
inductive OrderStatus
  | filled
  | cancelled
  | rejected
deriving DecidableEq, Repr

/-- The clipping of the desired position at line 200. -/
def clipPosition (maxPos x : Int) : Int :=
  max (-maxPos) (min maxPos x)

/-- The pure decision part of execute_trade (lines 197-207): desired
position, delta against the tracked position, and the single order
emitted when the delta is nonzero. -/
def reconcileOrder (cfg : BotConfig) (signal position : Int) : Option (OrderAction × Int) :=
  let desired := clipPosition cfg.max_position (signal * cfg.order_size)
  let delta := desired - position
  if delta = 0 then none
  else some (if 0 < delta then OrderAction.buy else OrderAction.sell, |delta|)

/-- execute_trade (lines 190-220) for a given current signal and tracked
position: when an order is emitted the source waits until the trade is
done and then updates self.position by the full quantity in the direction
of the action, without inspecting whether the terminal status was a fill;
the terminal parameter records what the gateway eventually reported and is
(faithfully to the source) never consulted. Returns the new tracked
position and the order submitted, if any. -/
def execute_trade (cfg : BotConfig) (signal position : Int) (terminal : OrderStatus) :
    Int × Option (OrderAction × Int) :=
  match reconcileOrder cfg signal position with
  | none => (position, none)
  | some (a, q) =>
    ((if a = OrderAction.buy then position + q else position - q), some (a, q))

/-- The full per-bar callback on_bar_update (lines 179-188): buffer step,
indicator recomputation, then execute_trade on the latest signal; none
models the unreachable raise of int conversion on a NaN signal cell. The
callback takes no clock or session input: nothing on this path consults
start_time or end_time. -/
def on_bar_update (cfg : BotConfig) (df : DataFrame) (b : Bar) (position : Int)
    (terminal : OrderStatus) : Option (DataFrame × Int × Option (OrderAction × Int)) :=
  match latest_signal (compute_indicators cfg (appendAndTrim cfg df b)) with
  | none => none
  | some s =>
    some (compute_indicators cfg (appendAndTrim cfg df b),
      execute_trade cfg s position terminal)

/-- A sequence of complete, sequential reconciliation cycles: each cycle
runs execute_trade on that cycle's signal and the position left by the
previous cycle, with every order settling before the next cycle. -/
def runCycles (cfg : BotConfig) (signals : List Int) (p0 : Int) : Int :=
  signals.foldl (fun p s => (execute_trade cfg s p OrderStatus.filled).1) p0

/-- Shared state visible to the concurrently scheduled on_bar_update
tasks: self.position, plus the multiset of submitted orders whose terminal
status has not yet been observed. run (line 237) schedules each bar event
as a fresh task, and execute_trade only writes self.position after its
await loop (lines 212-218), so a second task can read position and submit
between an earlier task's submission and its completion. -/
structure SharedState where
  position : Int
  ordersInFlight : List (OrderAction × Int)
deriving DecidableEq, Repr

/-- The first half of one task's execute_trade, up to and including order
submission (lines 192-210): reads the shared position and, when the delta
is nonzero, adds one order to the in-flight set. -/
def submitPhase (cfg : BotConfig) (signal : Int) (st : SharedState) : SharedState :=
  match reconcileOrder cfg signal st.position with
  | none => st
  | some o => { st with ordersInFlight := st.ordersInFlight ++ [o] }

/-- The position update applied once a trade is done (lines 215-218). -/
def applyFill (o : OrderAction × Int) (p : Int) : Int :=
  if o.1 = OrderAction.buy then p + o.2 else p - o.2

/-- The second half of one task's execute_trade, after its await loop
observes a terminal status (lines 212-218): the order leaves the in-flight
set and the shared position is updated by its full quantity. -/
def completePhase (o : OrderAction × Int) (st : SharedState) : SharedState :=
  { position := applyFill o st.position,
    ordersInFlight := st.ordersInFlight.erase o }

/-- The condition under which the main loop of run keeps the subscription
alive (lines 241-248): with an end time configured it polls now against it
and exits at or after it; otherwise it runs forever. This is the only
place in the program that reads the session configuration, and it reads
only end_time. -/
def run_loop_continues (cfg : BotConfig) (now : Nat) : Bool :=
  match cfg.end_time with
  | none => true
  | some e => decide (now < e)

/-- Spec-side definition, for comparison only, of the session-activity
predicate the specification attributes to the program: active when the
start is unset or now is at or past it, and the end is unset or now is
before it. The source contains no counterpart on the per-bar path. -/
def sessionActiveSpec (startT endT : Option Nat) (now : Nat) : Bool :=
  (match startT with | none => true | some s => decide (s ≤ now)) &&
  (match endT with | none => true | some e => decide (now < e))

/-- n rows with constant close c and timestamps 0, 1, ... -/
def constRows (n : Nat) (c : ℚ) : List Row :=
  (List.range n).map (fun i : Nat => { ts := (i : Int), close := c })

/-- A frame of exactly long_window = 20 bars, all closing at 100. -/
def df20 : DataFrame := { rows := constRows 20 100 }

/-- A frame of 21 bars, all closing at 100. -/
def df21 : DataFrame := { rows := constRows 21 100 }

/-- 19 closes at 100 followed by one at 200: at position 19 both averages
are defined and the short one is strictly greater. -/
def dfCross : DataFrame := { rows := constRows 19 100 ++ [{ ts := 19, close := 200 }] }

/-- 20 closes at 100 followed by one at 200: at position 20 the short
average 120 strictly exceeds the long average 105. -/
def dfCross21 : DataFrame := { rows := constRows 20 100 ++ [{ ts := 20, close := 200 }] }

/-- A one-row frame holding the bar with timestamp 100. -/
def df100 : DataFrame := { rows := [{ ts := 100, close := 50 }] }

/-- The empty frame self.data starts as (line 115). -/
def emptyDF : DataFrame := { rows := [] }

/-- The default configuration with a session start of 09:30. -/
def cfgWithStart : BotConfig := { defaultConfig with start_time := some 570 }

/-- Row 5 of the constant frame df21 after indicator computation. -/
def rowMid : Row :=
  { ts := 5, close := 100, smaShort := some 100, smaLong := none, signal := some 0 }

/-- Row 20 of the constant frame df21 after indicator computation. -/
def rowEnd : Row :=
  { ts := 20, close := 100, smaShort := some 100, smaLong := some 100, signal := some (-1) }

/-- Row 19 of dfCross after indicator computation: both averages defined,
the short strictly above the long, signal still 0. -/
def rowCross19 : Row :=
  { ts := 19, close := 200, smaShort := some 120, smaLong := some 105, signal := some 0 }

/-- Row 20 of dfCross21 after indicator computation. -/
def rowCross20 : Row :=
  { ts := 20, close := 200, smaShort := some 120, smaLong := some 105, signal := some 1 }

lemma applyIndicators_isEmpty (sw lw : Nat) (cs : List ℚ) (i : Nat) (rs : List Row) :
    (applyIndicators sw lw cs i rs).isEmpty = rs.isEmpty := by
  cases rs <;> simp [applyIndicators]

lemma applyIndicators_length (sw lw : Nat) (cs : List ℚ) :
    ∀ (i : Nat) (rs : List Row), (applyIndicators sw lw cs i rs).length = rs.length := by
  intro i rs
  induction rs generalizing i with
  | nil => simp [applyIndicators]
  | cons r rs ih => simp [applyIndicators, ih]

lemma applyIndicators_map_close (sw lw : Nat) (cs : List ℚ) :
    ∀ (i : Nat) (rs : List Row),
      (applyIndicators sw lw cs i rs).map Row.close = rs.map Row.close := by
  intro i rs
  induction rs generalizing i with
  | nil => simp [applyIndicators]
  | cons r rs ih => simp [applyIndicators, ih]

lemma applyIndicators_idem (sw lw : Nat) (cs : List ℚ) :
    ∀ (i : Nat) (rs : List Row),
      applyIndicators sw lw cs i (applyIndicators sw lw cs i rs) =
        applyIndicators sw lw cs i rs := by
  intro i rs
  induction rs generalizing i with
  | nil => simp [applyIndicators]
  | cons r rs ih => simp [applyIndicators, ih]

lemma applyIndicators_getElem? (sw lw : Nat) (cs : List ℚ) :
    ∀ (rs : List Row) (i j : Nat),
      (applyIndicators sw lw cs i rs)[j]? =
        rs[j]?.map (fun r =>
          { r with
            smaShort := smaAt sw cs (i + j),
            smaLong := smaAt lw cs (i + j),
            signal := some (signalAt sw lw cs (i + j)) }) := by
  intro rs
  induction rs with
  | nil => intro i j; simp [applyIndicators]
  | cons r rs ih =>
    intro i j
    cases j with
    | zero => simp [applyIndicators]
    | succ j =>
      rw [show i + (j + 1) = i + 1 + j from by omega]
      simpa [applyIndicators] using ih (i + 1) j

lemma signalAt_cases (sw lw : Nat) (cs : List ℚ) (i : Nat) :
    signalAt sw lw cs i = -1 ∨ signalAt sw lw cs i = 0 ∨ signalAt sw lw cs i = 1 := by
  unfold signalAt
  split_ifs <;> simp

lemma latest_signal_compute (cfg : BotConfig) (df : DataFrame) (h : df.rows ≠ []) :
    latest_signal (compute_indicators cfg df) =
      some (signalAt cfg.short_window cfg.long_window (df.rows.map Row.close)
        (df.rows.length - 1)) := by
  have hne : df.rows.isEmpty = false := List.isEmpty_eq_false.mpr h
  unfold compute_indicators
  rw [if_neg (by simp [hne])]
  unfold latest_signal
  rw [if_neg (by simp [applyIndicators_isEmpty, hne])]
  rw [List.getLast?_eq_getElem?, applyIndicators_length, applyIndicators_getElem?]
  obtain ⟨r0, hr0⟩ : ∃ r0, df.rows[df.rows.length - 1]? = some r0 := by
    have hlt : df.rows.length - 1 < df.rows.length := by
      have := List.length_pos.mpr h
      omega
    exact ⟨_, List.getElem?_eq_getElem hlt⟩
  rw [hr0]
  simp

lemma compute_getElem (cfg : BotConfig) (df : DataFrame) (j : Nat) (r0 : Row)
    (hne : df.rows.isEmpty = false) (hj : df.rows[j]? = some r0) :
    (compute_indicators cfg df).rows[j]? =
      some { r0 with
        smaShort := smaAt cfg.short_window (df.rows.map Row.close) j,
        smaLong := smaAt cfg.long_window (df.rows.map Row.close) j,
        signal := some (signalAt cfg.short_window cfg.long_window
          (df.rows.map Row.close) j) } := by
  rw [compute_indicators, if_neg (by simp [hne])]
  rw [applyIndicators_getElem?, hj, Option.map_some']
  simp

lemma constRows_length (n : Nat) (c : ℚ) : (constRows n c).length = n := by
  simp [constRows]

lemma constRows_map_close (n : Nat) (c : ℚ) :
    (constRows n c).map Row.close = List.replicate n c := by
  unfold constRows
  rw [List.map_map]
  rw [show (Row.close ∘ fun i : Nat => ({ ts := (i : Int), close := c } : Row))
       = fun _ : Nat => c from rfl]
  rw [List.map_const', List.length_range]

lemma constRows_getElem? (n : Nat) (c : ℚ) (i : Nat) (h : i < n) :
    (constRows n c)[i]? = some { ts := (i : Int), close := c } := by
  unfold constRows
  rw [List.getElem?_map, List.getElem?_range h]
  rfl

lemma optGt_self (c : ℚ) : optGt (some c) (some c) = false := by
  simp only [optGt]
  rw [decide_eq_false_iff_not]
  exact lt_irrefl c

lemma optGt_of_lt {a b : ℚ} (h : b < a) : optGt (some a) (some b) = true := by
  simp only [optGt]
  rw [decide_eq_true_eq]
  exact h

lemma smaAt_undefined (w : Nat) (cs : List ℚ) (i : Nat) (h : i + 1 < w) :
    smaAt w cs i = none := by
  rw [smaAt, if_pos h]

lemma smaAt_replicate (w n i : Nat) (c : ℚ) (hw : 0 < w) (hwin : w ≤ i + 1)
    (hi : i < n) :
    smaAt w (List.replicate n c) i = some c := by
  rw [smaAt, if_neg (by omega)]
  rw [List.drop_replicate, List.take_replicate]
  have hmin : w ⊓ (n - (i + 1 - w)) = w := by
    rw [inf_eq_left]
    omega
  rw [hmin, List.sum_replicate, nsmul_eq_mul]
  rw [mul_div_cancel_left₀ c (Nat.cast_ne_zero.mpr (by omega))]

lemma smaAt_replicate_concat (w n : Nat) (c d : ℚ) (hw : 0 < w) (hwn : w ≤ n + 1) :
    smaAt w (List.replicate n c ++ [d]) n =
      some ((((w - 1 : Nat) : ℚ) * c + d) / (w : ℚ)) := by
  rw [smaAt, if_neg (by omega)]
  rw [List.drop_append_of_le_length (by simp [List.length_replicate]; omega)]
  rw [List.drop_replicate]
  rw [show n - (n + 1 - w) = w - 1 from by omega]
  rw [List.take_of_length_le (by simp [List.length_replicate]; omega)]
  rw [List.sum_append, List.sum_replicate, List.sum_cons, List.sum_nil, nsmul_eq_mul,
    add_zero]

lemma default_sw : defaultConfig.short_window = 5 := rfl

lemma default_lw : defaultConfig.long_window = 20 := rfl

lemma cfgWithStart_sw : cfgWithStart.short_window = 5 := rfl

lemma cfgWithStart_lw : cfgWithStart.long_window = 20 := rfl

lemma appendAndTrim_rows (cfg : BotConfig) (df : DataFrame) (b : Bar) :
    (appendAndTrim cfg df b).rows =
      (df.rows ++ [barRow b]).drop
        (df.rows.length + 1 - 3 * max cfg.short_window cfg.long_window) := by
  unfold appendAndTrim
  by_cases hc : 3 * max cfg.short_window cfg.long_window < (df.rows ++ [barRow b]).length
  · simp only [if_pos hc]
    simp [List.length_append]
  · simp only [if_neg hc]
    have h0 : df.rows.length + 1 - 3 * max cfg.short_window cfg.long_window = 0 := by
      simp [List.length_append] at hc
      omega
    rw [h0, List.drop_zero]

lemma df21_closes : df21.rows.map Row.close = List.replicate 21 (100 : ℚ) := by
  show (constRows 21 100).map Row.close = _
  exact constRows_map_close 21 100

lemma df21_at5 : (compute_indicators defaultConfig df21).rows[5]? = some rowMid := by
  rw [compute_getElem defaultConfig df21 5 { ts := 5, close := 100 } (by decide)
      (by exact constRows_getElem? 21 100 5 (by omega))]
  rw [default_sw, default_lw, df21_closes]
  unfold signalAt
  rw [if_pos (by omega)]
  rw [smaAt_replicate 5 21 5 100 (by omega) (by omega) (by omega)]
  rw [smaAt_undefined 20 _ 5 (by omega)]
  rfl

lemma df21_at20 : (compute_indicators defaultConfig df21).rows[20]? = some rowEnd := by
  rw [compute_getElem defaultConfig df21 20 { ts := 20, close := 100 } (by decide)
      (by exact constRows_getElem? 21 100 20 (by omega))]
  rw [default_sw, default_lw, df21_closes]
  unfold signalAt
  rw [if_neg (by omega)]
  rw [smaAt_replicate 5 21 20 100 (by omega) (by omega) (by omega)]
  rw [smaAt_replicate 20 21 20 100 (by omega) (by omega) (by omega)]
  rw [optGt_self]
  rfl

lemma dfCross_closes :
    dfCross.rows.map Row.close = List.replicate 19 (100 : ℚ) ++ [200] := by
  show (constRows 19 100 ++ [({ ts := 19, close := 200 } : Row)]).map Row.close = _
  rw [List.map_append, constRows_map_close]
  rfl

lemma dfCross_at19 :
    (compute_indicators defaultConfig dfCross).rows[19]? = some rowCross19 := by
  rw [compute_getElem defaultConfig dfCross 19 { ts := 19, close := 200 } (by decide)
      (by
        show (constRows 19 100 ++ [({ ts := 19, close := 200 } : Row)])[19]?
          = some ({ ts := 19, close := 200 } : Row)
        rw [List.getElem?_append_right (by rw [constRows_length])]
        rw [constRows_length]
        rfl)]
  have h5 : smaAt 5 (List.replicate 19 (100 : ℚ) ++ [200]) 19 = some 120 := by
    rw [smaAt_replicate_concat 5 19 100 200 (by omega) (by omega)]
    simp only [Option.some.injEq]
    norm_num
  have h20 : smaAt 20 (List.replicate 19 (100 : ℚ) ++ [200]) 19 = some 105 := by
    rw [smaAt_replicate_concat 20 19 100 200 (by omega) (by omega)]
    simp only [Option.some.injEq]
    norm_num
  rw [default_sw, default_lw, dfCross_closes]
  unfold signalAt
  rw [if_pos (by omega)]
  rw [h5, h20]
  rfl

lemma dfCross21_closes :
    dfCross21.rows.map Row.close = List.replicate 20 (100 : ℚ) ++ [200] := by
  show (constRows 20 100 ++ [({ ts := 20, close := 200 } : Row)]).map Row.close = _
  rw [List.map_append, constRows_map_close]
  rfl

lemma dfCross21_at20 :
    (compute_indicators defaultConfig dfCross21).rows[20]? = some rowCross20 := by
  rw [compute_getElem defaultConfig dfCross21 20 { ts := 20, close := 200 } (by decide)
      (by
        show (constRows 20 100 ++ [({ ts := 20, close := 200 } : Row)])[20]?
          = some ({ ts := 20, close := 200 } : Row)
        rw [List.getElem?_append_right (by rw [constRows_length])]
        rw [constRows_length]
        rfl)]
  have h5 : smaAt 5 (List.replicate 20 (100 : ℚ) ++ [200]) 20 = some 120 := by
    rw [smaAt_replicate_concat 5 20 100 200 (by omega) (by omega)]
    simp only [Option.some.injEq]
    norm_num
  have h20 : smaAt 20 (List.replicate 20 (100 : ℚ) ++ [200]) 20 = some 105 := by
    rw [smaAt_replicate_concat 20 20 100 200 (by omega) (by omega)]
    simp only [Option.some.injEq]
    norm_num
  rw [default_sw, default_lw, dfCross21_closes]
  unfold signalAt
  rw [if_neg (by omega)]
  rw [h5, h20]
  rw [optGt_of_lt (by norm_num : (105 : ℚ) < 120)]
  rfl

lemma execute_trade_fst (cfg : BotConfig) (s p : Int) (st : OrderStatus) :
    (execute_trade cfg s p st).1 = clipPosition cfg.max_position (s * cfg.order_size) := by
  unfold execute_trade reconcileOrder
  set d := clipPosition cfg.max_position (s * cfg.order_size) with hd
  by_cases h : d - p = 0
  · rw [if_pos h]
    show p = d
    omega
  · rw [if_neg h]
    by_cases hpos : 0 < d - p
    · simp [hpos, abs_of_pos hpos]
    · have hneg : d - p < 0 := by omega
      simp [hpos, abs_of_neg hneg]

lemma abs_clipPosition_le (M x : Int) (h : 0 ≤ M) : |clipPosition M x| ≤ M := by
  unfold clipPosition
  rw [abs_le]
  constructor
  · exact le_max_left _ _
  · exact max_le (by omega) (min_le_left _ _)

/-- Claim C1: one reconciliation cycle of execute_trade computes the
desired position as the clip of signal times order_size to the maximum
position, takes the delta against the tracked position, does nothing and
changes no state when the delta is zero, and otherwise emits exactly one
order, buy when the delta is positive and sell otherwise, of quantity the
absolute delta; in particular with the default configuration the cycle at
signal Long from position 0 decides buy 1 and the subsequent cycle from
position 1 decides no action. -/
theorem execute_trade_decision (cfg : BotConfig) (s p : Int) (st : OrderStatus) :
    execute_trade cfg s p st =
      (let desired := max (-cfg.max_position) (min cfg.max_position (s * cfg.order_size))
       let delta := desired - p
       if delta = 0 then (p, none)
       else (p + delta,
         some (if 0 < delta then OrderAction.buy else OrderAction.sell, |delta|))) ∧
    execute_trade defaultConfig 1 0 OrderStatus.filled = (1, some (OrderAction.buy, 1)) ∧
    execute_trade defaultConfig 1 1 OrderStatus.filled = (1, none) := by
  refine ⟨?_, by decide, by decide⟩
  unfold execute_trade reconcileOrder clipPosition
  set d := max (-cfg.max_position) (min cfg.max_position (s * cfg.order_size)) with hd
  by_cases h : d - p = 0
  · simp [h]
  · rw [if_neg h]
    by_cases hpos : 0 < d - p
    · simp [h, hpos, abs_of_pos hpos]
    · have hneg : d - p < 0 := by omega
      simp [h, hpos, abs_of_neg hneg]

/-- Claim C2, code evaluation at the failing input: with the default
configuration, signal Long and position 0, a cycle whose order the
gateway terminally reports as rejected still moves the tracked position
to 1 — the source updates self.position whenever the trade is done,
without checking how it ended — and the outcome of the cycle is
literally identical to that of a filled order, so the nonzero delta does
not reappear on the next bar and no retry happens. -/
theorem position_updated_on_rejection :
    (execute_trade defaultConfig 1 0 OrderStatus.rejected).1 = 1 ∧
    execute_trade defaultConfig 1 0 OrderStatus.rejected
      = execute_trade defaultConfig 1 0 OrderStatus.filled := by
  decide

/-- Claim C3, code evaluation at the failing interleaving: two bar events
arriving while the first cycle's order is still awaiting its terminal
status each run the submit half of execute_trade against the still
unchanged shared position 0 with signal Long, so after the second submit
two buy orders of quantity 1 are simultaneously in flight, and once both
fill the position reaches 2, above the configured max_position of 1. -/
theorem double_submission_two_in_flight :
    (submitPhase defaultConfig 1 (submitPhase defaultConfig 1 ⟨0, []⟩)).ordersInFlight
      = [(OrderAction.buy, 1), (OrderAction.buy, 1)] ∧
    (completePhase (OrderAction.buy, 1)
      (completePhase (OrderAction.buy, 1)
        (submitPhase defaultConfig 1 (submitPhase defaultConfig 1 ⟨0, []⟩)))).position
      = 2 := by
  decide

/-- Claim C4, counterexample: appending a bar with the same timestamp 100
as the single stored bar grows the buffer to two rows instead of
replacing the stored bar, and appending a bar with the strictly smaller
timestamp 99 alters the buffer instead of being rejected. -/
theorem equal_timestamp_duplicates_and_stale_appends :
    (appendAndTrim defaultConfig df100 { ts := 100, close := 60 }).rows.length = 2 ∧
    (appendAndTrim defaultConfig df100 { ts := 99, close := 40 }).rows ≠ df100.rows := by
  decide

/-- Claim C4 as amended: the buffer step of on_bar_update appends the new
bar unconditionally — a bar with an equal timestamp duplicates the stored
bar rather than replacing it and a bar with a smaller timestamp is
appended rather than rejected — and then keeps only the most recent
3 times max(short_window, long_window) rows; timestamps in the buffer are
not kept strictly increasing. -/
theorem appendAndTrim_always_appends (cfg : BotConfig) (df : DataFrame) (b : Bar) :
    (appendAndTrim cfg df b).rows =
      (df.rows ++ [barRow b]).drop
        (df.rows.length + 1 - 3 * max cfg.short_window cfg.long_window) :=
  appendAndTrim_rows cfg df b

/-- Claim C5, counterexample: on a frame of exactly 20 bars — the
long_window-th bar — the latest signal is 0, not a defined directional
value, because the source only assigns directional signals from position
long_window onward. -/
theorem twenty_bars_signal_not_defined :
    ¬ (latest_signal (compute_indicators defaultConfig df20) = some 1 ∨
       latest_signal (compute_indicators defaultConfig df20) = some (-1)) := by
  decide

/-- Claim C5 as amended: every position with index below long_window —
that is, each of the first long_window bars, 20 bars under the default
configuration — carries signal 0, and every position from index
long_window onward, i.e. from bar long_window + 1 = 21 onward, carries a
defined directional signal of 1 or -1. -/
theorem signal_flat_until_long_window (cfg : BotConfig) (df : DataFrame) (j : Nat) (r : Row)
    (h : (compute_indicators cfg df).rows[j]? = some r) :
    (j < cfg.long_window → r.signal = some 0) ∧
    (cfg.long_window ≤ j → (r.signal = some 1 ∨ r.signal = some (-1))) := by
  by_cases he : df.rows.isEmpty
  · rw [compute_indicators, if_pos he] at h
    rw [List.isEmpty_iff.mp he] at h
    simp at h
  · rw [compute_indicators, if_neg he] at h
    rw [applyIndicators_getElem?] at h
    rcases hq : df.rows[j]? with _ | r0
    · rw [hq] at h
      simp at h
    · rw [hq] at h
      simp only [Option.map_some', Option.some.injEq] at h
      subst h
      simp only [Nat.zero_add]
      constructor
      · intro hj
        simp [signalAt, hj]
      · intro hj
        simp only [signalAt, if_neg (Nat.not_lt.mpr hj)]
        cases hopt : optGt (smaAt cfg.short_window (df.rows.map Row.close) j)
            (smaAt cfg.long_window (df.rows.map Row.close) j) <;> simp [hopt]

/-- Claim C5 witness: in the 21-bar constant frame, position 5 (below
long_window) carries signal 0 and position 20 (at long_window) carries a
defined directional signal. -/
theorem signal_flat_until_long_window_witness :
    rowMid.signal = some 0 ∧ (rowEnd.signal = some 1 ∨ rowEnd.signal = some (-1)) :=
  ⟨(signal_flat_until_long_window defaultConfig df21 5 rowMid df21_at5).1 (by decide),
   (signal_flat_until_long_window defaultConfig df21 20 rowEnd df21_at20).2 (by decide)⟩

/-- Claim C6, counterexample: at position 19 of dfCross both moving
averages are defined, 120 for the short and 105 for the long, the short
strictly exceeds the long, yet the computed signal is 0 rather than the
Long the claim requires at every position where both averages are
defined. -/
theorem both_defined_but_flat :
    (compute_indicators defaultConfig dfCross).rows[19]? = some rowCross19 ∧
    optGt rowCross19.smaShort rowCross19.smaLong = true ∧
    ¬ rowCross19.signal = some 1 := by
  refine ⟨dfCross_at19, ?_, by decide⟩
  show optGt (some 120) (some 105) = true
  exact optGt_of_lt (by norm_num)

/-- Claim C6 as amended: at every position from index long_window onward
(under a configuration with 0 < short_window and short_window at most
long_window) both moving averages are defined and the signal is Long
exactly when the short average strictly exceeds the long one and Short
otherwise, equality included; at the single earlier position
long_window - 1 where both averages are already defined the signal is
still Flat, so the original claim fails there. -/
theorem signal_after_long_window (cfg : BotConfig) (df : DataFrame) (j : Nat) (r : Row)
    (h : (compute_indicators cfg df).rows[j]? = some r)
    (hj : cfg.long_window ≤ j) ( _hsw : 0 < cfg.short_window)
    (hwl : cfg.short_window ≤ cfg.long_window) :
    r.smaShort.isSome = true ∧ r.smaLong.isSome = true ∧
    (r.signal = some 1 ↔ optGt r.smaShort r.smaLong = true) ∧
    (r.signal = some (-1) ↔ optGt r.smaShort r.smaLong = false) := by
  by_cases he : df.rows.isEmpty
  · rw [compute_indicators, if_pos he] at h
    rw [List.isEmpty_iff.mp he] at h
    simp at h
  · rw [compute_indicators, if_neg he] at h
    rw [applyIndicators_getElem?] at h
    rcases hq : df.rows[j]? with _ | r0
    · rw [hq] at h
      simp at h
    · rw [hq] at h
      simp only [Option.map_some', Option.some.injEq] at h
      subst h
      simp only [Nat.zero_add]
      have hshort : ¬ j + 1 < cfg.short_window := by omega
      have hlong : ¬ j + 1 < cfg.long_window := by omega
      refine ⟨by simp [smaAt, hshort], by simp [smaAt, hlong], ?_, ?_⟩ <;>
        · simp only [signalAt, if_neg (Nat.not_lt.mpr hj)]
          cases hopt : optGt (smaAt cfg.short_window (df.rows.map Row.close) j)
              (smaAt cfg.long_window (df.rows.map Row.close) j) <;> simp [hopt]

/-- Claim C6 witness: at position 20 of dfCross21 both averages are
defined, 120 against 105, and the signal is 1 in accordance with the
strict comparison. -/
theorem signal_after_long_window_witness :
    rowCross20.smaShort.isSome = true ∧ rowCross20.smaLong.isSome = true ∧
    (rowCross20.signal = some 1 ↔ optGt rowCross20.smaShort rowCross20.smaLong = true) ∧
    (rowCross20.signal = some (-1) ↔ optGt rowCross20.smaShort rowCross20.smaLong = false) :=
  signal_after_long_window defaultConfig dfCross21 20 rowCross20
    dfCross21_at20 (by decide) (by decide) (by decide)

/-- Claim C7, code evaluation at the failing input: with a session start
of 09:30 configured, the session-activity predicate of the specification
is false at 09:00, and the run loop of the source nonetheless keeps
processing bars at 09:00 because it only ever reads end_time, and the
per-bar path — which consults no clock at all — submits a sell order of
quantity 1 for the arriving bar; start_time is read nowhere in the
program. -/
theorem order_submitted_before_start_time :
    sessionActiveSpec cfgWithStart.start_time cfgWithStart.end_time 540 = false ∧
    run_loop_continues cfgWithStart 540 = true ∧
    Option.map (fun t => t.2.2)
        (on_bar_update cfgWithStart df21 { ts := 21, close := 100 } 0 OrderStatus.filled)
      = some (some (OrderAction.sell, 1)) := by
  refine ⟨by decide, by decide, ?_⟩
  have happ : (appendAndTrim cfgWithStart df21 { ts := 21, close := 100 }).rows
      = df21.rows ++ [barRow { ts := 21, close := 100 }] := by
    rw [appendAndTrim_rows]
    rw [show df21.rows.length + 1
        - 3 * max cfgWithStart.short_window cfgWithStart.long_window = 0 from by decide]
    rw [List.drop_zero]
  have hne2 : (appendAndTrim cfgWithStart df21 { ts := 21, close := 100 }).rows ≠ [] := by
    rw [happ]
    simp
  have hlen2 : (appendAndTrim cfgWithStart df21 { ts := 21, close := 100 }).rows.length
      = 22 := by
    rw [happ]
    decide
  have hclosemap :
      (appendAndTrim cfgWithStart df21 { ts := 21, close := 100 }).rows.map Row.close
        = List.replicate 22 (100 : ℚ) := by
    rw [happ, List.map_append]
    rw [show df21.rows = constRows 21 100 from rfl, constRows_map_close]
    rw [show List.map Row.close [barRow { ts := 21, close := 100 }] = [(100 : ℚ)] from rfl]
    rw [← List.replicate_succ']
  have hsig : signalAt cfgWithStart.short_window cfgWithStart.long_window
      ((appendAndTrim cfgWithStart df21 { ts := 21, close := 100 }).rows.map Row.close)
      ((appendAndTrim cfgWithStart df21 { ts := 21, close := 100 }).rows.length - 1)
      = -1 := by
    rw [hlen2, hclosemap, cfgWithStart_sw, cfgWithStart_lw]
    rw [show (22 : Nat) - 1 = 21 from rfl]
    unfold signalAt
    rw [if_neg (by omega)]
    rw [smaAt_replicate 5 22 21 100 (by omega) (by omega) (by omega)]
    rw [smaAt_replicate 20 22 21 100 (by omega) (by omega) (by omega)]
    rw [optGt_self]
    rfl
  unfold on_bar_update
  rw [latest_signal_compute cfgWithStart _ hne2, hsig]
  decide

/-- Claim C8: over any sequence of sequentially completed reconciliation
cycles started from position 0, the absolute tracked position never
exceeds max_position, provided max_position is nonnegative. -/
theorem position_bounded (cfg : BotConfig) (signals : List Int)
    (h : 0 ≤ cfg.max_position) :
    |runCycles cfg signals 0| ≤ cfg.max_position := by
  suffices hgen : ∀ p : Int, |p| ≤ cfg.max_position →
      |runCycles cfg signals p| ≤ cfg.max_position by
    exact hgen 0 (by simpa using h)
  unfold runCycles
  induction signals with
  | nil =>
    intro p hp
    simpa using hp
  | cons s ss ih =>
    intro p hp
    simp only [List.foldl_cons]
    apply ih
    rw [execute_trade_fst]
    exact abs_clipPosition_le _ _ h

/-- Claim C8 witness: a concrete run of four cycles from position 0 under
the default configuration stays within the maximum position. -/
theorem position_bounded_witness :
    |runCycles defaultConfig [1, -1, 1, 0] 0| ≤ defaultConfig.max_position :=
  position_bounded defaultConfig [1, -1, 1, 0] (by decide)

/-- Claim C9: indicator recomputation is a pure, idempotent function of
the buffer contents — running compute_indicators twice on an unchanged
frame yields exactly the frame produced by running it once, every short
average, long average and signal cell included. -/
theorem compute_indicators_idempotent (cfg : BotConfig) (df : DataFrame) :
    compute_indicators cfg (compute_indicators cfg df) = compute_indicators cfg df := by
  unfold compute_indicators
  by_cases h : df.rows.isEmpty
  · simp [h]
  · simp only [h, Bool.false_eq_true, if_false, applyIndicators_isEmpty]
    rw [applyIndicators_map_close, applyIndicators_idem]

/-- Claim C10: the indicator pipeline is total at every buffer size —
compute_indicators on an empty frame returns it unchanged, latest_signal
is 0 on an empty frame and whenever the signal column is absent, and on
any nonempty frame the recomputed latest signal is a defined value among
-1, 0 and 1. -/
theorem indicator_pipeline_total (cfg : BotConfig) (df : DataFrame) :
    (df.rows = [] → compute_indicators cfg df = df) ∧
    (df.rows = [] → latest_signal df = some 0) ∧
    (df.hasIndicatorCols = false → latest_signal df = some 0) ∧
    (df.rows ≠ [] →
      latest_signal (compute_indicators cfg df) = some (-1) ∨
      latest_signal (compute_indicators cfg df) = some 0 ∨
      latest_signal (compute_indicators cfg df) = some 1) := by
  refine ⟨?_, ?_, ?_, ?_⟩
  · intro h
    simp [compute_indicators, h]
  · intro h
    simp [latest_signal, h]
  · intro h
    simp [latest_signal, h]
  · intro h
    rw [latest_signal_compute cfg df h]
    rcases signalAt_cases cfg.short_window cfg.long_window (df.rows.map Row.close)
        (df.rows.length - 1) with hc | hc | hc <;> simp [hc]

/-- Claim C10 witness: the pipeline evaluated on the empty frame and on a
concrete 21-bar frame. -/
theorem indicator_pipeline_total_witness :
    compute_indicators defaultConfig emptyDF = emptyDF ∧
    latest_signal emptyDF = some 0 ∧
    (latest_signal (compute_indicators defaultConfig df21) = some (-1) ∨
     latest_signal (compute_indicators defaultConfig df21) = some 0 ∨
     latest_signal (compute_indicators defaultConfig df21) = some 1) :=
  ⟨(indicator_pipeline_total defaultConfig emptyDF).1 rfl,
   (indicator_pipeline_total defaultConfig emptyDF).2.1 rfl,
   (indicator_pipeline_total defaultConfig df21).2.2.2 (by decide)⟩

end FuturesBot
